import Mathlib

/-!
# Kasbah-Core: the `runSafe` client flow of `update-to-real-api.js`

A shallow embedding of the script `src/update-to-real-api.js`: the toggle
`USE_REAL_API`, the derived `API_URL`, and the asynchronous function `runSafe`,
which drives the decide / consume handshake against the two HTTP endpoints.

`runSafe` is straight-line code over the host page (a button, the page variables
`savedTicket` and `startTime`, the page functions `out` and `sleep`) and the
network (`fetch`, `response.json()`).  It is embedded as a function from the
page state to an outcome: the value or the exception the call ends with, the
page state it leaves, and the chronological list of the effects it performed.
An `await` on a rejected promise is an exception at that point, and the code has
no `try`, so the first exception ends the call.
-/

namespace Kasbah

/-! ## Values of the host language -/

/-- The values that reach `runSafe`: what `JSON.parse` can produce, and
`undefined` (the result of reading a property that is absent).  A number is
the exact rational value of its decimal literal; `runSafe` does no arithmetic
on the numbers it receives.  A string is a well-formed text, counted in UTF-16
code units where the script counts (`substring`).  An object is its list of own
properties, the first entry for a key being the value of that key. -/
inductive JSValue where
  | undefined : JSValue
  | null : JSValue
  | bool (b : Bool) : JSValue
  | num (q : ℚ) : JSValue
  | str (s : String) : JSValue
  | arr (items : List JSValue) : JSValue
  | obj (fields : List (String × JSValue)) : JSValue

/-- The exceptions a call of `runSafe` can end with.  `TypeError` carries the
name of the operation that raised it. -/
inductive JSError where
  | TypeError (what : String) : JSError
  | NetworkError : JSError
  | SyntaxError : JSError
deriving DecidableEq, Repr

/-- Own-property lookup in an object literal. -/
def lookupField : List (String × JSValue) → String → Option JSValue
  | [], _ => none
  | (k, v) :: rest, key => if k = key then some v else lookupField rest key

/-- The property read `v.key`, for the property names `runSafe` reads (`ticket`,
`integrity`, `consumed`), none of which a built-in prototype defines: reading
from `null` or `undefined` throws, an object yields its own property or
`undefined`, every other value yields `undefined`. -/
def Get (v : JSValue) (key : String) : Except JSError JSValue :=
  match v with
  | .undefined => .error (.TypeError "property read")
  | .null => .error (.TypeError "property read")
  | .obj fields =>
      match lookupField fields key with
      | some x => .ok x
      | none => .ok .undefined
  | _ => .ok .undefined

/-- `Number::toString`: an integer in the safe range prints as its decimal
digits; the text of any other number is the engine's. -/
def Number_toString (engine : ℚ → String) (q : ℚ) : String :=
  if q.den = 1 ∧ q.num.natAbs < 2 ^ 53 then toString q.num else engine q

mutual
/-- The abstract operation `ToString`, which a template literal applies to each
substituted value.  An array is joined with commas, `null` and `undefined`
elements giving the empty text; a plain object gives `[object Object]`, unless
it has an own property `toString`, which parsed JSON can only bind to a
non-callable value, and then the conversion throws. -/
def ToStr (engine : ℚ → String) : JSValue → Except JSError String
  | .undefined => .ok "undefined"
  | .null => .ok "null"
  | .bool true => .ok "true"
  | .bool false => .ok "false"
  | .num q => .ok (Number_toString engine q)
  | .str s => .ok s
  | .arr items => joinItems engine items
  | .obj fields =>
      match lookupField fields "toString" with
      | some _ => .error (.TypeError "ToString")
      | none => .ok "[object Object]"
termination_by structural v => v
/-- The text of `Array.prototype.join` with the default separator. -/
def joinItems (engine : ℚ → String) : List JSValue → Except JSError String
  | [] => .ok ""
  | x :: rest =>
      match (match x with
             | .undefined => Except.ok ""
             | .null => Except.ok ""
             | v => ToStr engine v : Except JSError String) with
      | .error e => .error e
      | .ok s =>
          match rest with
          | [] => .ok s
          | _ :: _ =>
              match joinItems engine rest with
              | .error e => .error e
              | .ok t => .ok (s ++ "," ++ t)
termination_by structural l => l
end

/-- A UTF-16 code unit of a text: a whole character of the Basic Multilingual
Plane, or the high or the low half of the surrogate pair of a character beyond
it. -/
inductive CodeUnit where
  | whole (c : Char) : CodeUnit
  | high (c : Char) : CodeUnit
  | low (c : Char) : CodeUnit

/-- The code units of a text, which are what `length` and `substring` count: one
for a character below U+10000, two for any other. -/
def codeUnits : List Char → List CodeUnit
  | [] => []
  | c :: rest =>
      if c.val < 0x10000 then CodeUnit.whole c :: codeUnits rest
      else CodeUnit.high c :: CodeUnit.low c :: codeUnits rest

/-- The text of a run of consecutive code units: a pair gives back its
character, and a half that the cut parted from its other half is shown as
U+FFFD, the well-formed text of the slice. -/
def assemble : List CodeUnit → List Char
  | [] => []
  | CodeUnit.whole c :: rest => c :: assemble rest
  | CodeUnit.high c :: CodeUnit.low _ :: rest => c :: assemble rest
  | CodeUnit.high _ :: rest => Char.ofNat 0xFFFD :: assemble rest
  | CodeUnit.low _ :: rest => Char.ofNat 0xFFFD :: assemble rest

/-- `String.prototype.substring(start, stop)` for non-negative integer
arguments: both count UTF-16 code units, are clamped to the length in code
units, and are swapped when out of order. -/
def substring (s : String) (start stop : Nat) : String :=
  let units := codeUnits s.toList
  let a := min start units.length
  let b := min stop units.length
  String.mk (assemble ((units.take (max a b)).drop (min a b)))

/-- The method call `v.substring(start, stop)`: only a string has the method;
on `null` and `undefined` the property read throws, on any other value the
property is absent or not callable, and the call throws. -/
def callSubstring (v : JSValue) (start stop : Nat) : Except JSError String :=
  match v with
  | .str s => .ok (substring s start stop)
  | _ => .error (.TypeError "substring")

/-- A substitution `${v}` where `v` is `null` prints `null`. -/
def templ : Option String → String
  | some s => s
  | none => "null"

/-! ## The network and the page -/

/-- The text `JSON.stringify(v)`, kept symbolic: the request body is recorded
as the value that was encoded. -/
inductive Body where
  | JSON_stringify (v : JSValue) : Body

/-- A call `fetch(url, {method, headers, body})`. -/
structure Request where
  url : String
  method : String
  headers : List (String × String)
  body : Body

/-- A response: its status, and what `response.json()` resolves to (`none`
when the body is not JSON and the promise rejects). -/
structure Response where
  status : Nat
  json : Option JSValue

/-- The button element `btn-safe`. -/
structure Button where
  disabled : Bool
  textContent : String
deriving DecidableEq, Repr

/-- The effects of `runSafe` that the page and the network observe. -/
inductive Event where
  | setDisabled (b : Bool) : Event
  | setTextContent (s : String) : Event
  | out (id : String) (text : String) (style : Option String) : Event
  | sleep (ms : Nat) : Event
  | fetch (req : Request) : Event
  | json (resp : Response) : Event
  | assignSavedTicket (v : JSValue) : Event

/-- What is outside the script: the server behind `fetch` (`none` when the
promise rejects; the two requests of one call differ in their URL, so a
function of the request describes any server), the clock read by `Date.now()`
(indexed by the number of earlier reads), and the engine's number printer. -/
structure Host where
  fetch : Request → Option Response
  Date_now : Nat → Int
  engine : ℚ → String

/-- The state of the host page: the element with id `btn-safe` (absent when the
page has none), the page variables `savedTicket` and `startTime`, and the number
of clock reads so far. -/
structure Page where
  btn_safe : Option Button
  savedTicket : JSValue
  startTime : Int
  clockReads : Nat

/-- How a computation ends: its value or exception, the page it leaves, and the
effects it performed, oldest first. -/
structure Outcome (α : Type) where
  result : Except JSError α
  page : Page
  events : List Event

/-- A computation over the page. -/
def Run (α : Type) : Type := Page → Outcome α

/-- Return a value without effect. -/
def Run.pure {α : Type} (a : α) : Run α := fun p => ⟨.ok a, p, []⟩

/-- Sequencing: an exception in the first computation ends the whole. -/
def Run.bind {α β : Type} (m : Run α) (f : α → Run β) : Run β := fun p =>
  match m p with
  | ⟨.error e, p1, ev⟩ => ⟨.error e, p1, ev⟩
  | ⟨.ok a, p1, ev⟩ =>
      match f a p1 with
      | ⟨r, p2, ev2⟩ => ⟨r, p2, ev ++ ev2⟩

instance : Monad Run where
  pure := Run.pure
  bind := Run.bind

/-- Lift a pure step that may throw. -/
def liftExcept {α : Type} (x : Except JSError α) : Run α := fun p => ⟨x, p, []⟩

/-- `document.getElementById('btn-safe')`: a handle when the page has the
element, `null` otherwise. -/
def document_getElementById (_id : String) : Run (Option Unit) := fun p =>
  ⟨.ok (p.btn_safe.map (fun _ => ())), p, []⟩

/-- `btn.disabled = b`; throws when `btn` is `null`. -/
def set_disabled (btn : Option Unit) (b : Bool) : Run Unit := fun p =>
  match btn, p.btn_safe with
  | some _, some el =>
      ⟨.ok (), { p with btn_safe := some { el with disabled := b } }, [Event.setDisabled b]⟩
  | _, _ => ⟨.error (.TypeError "btn.disabled"), p, []⟩

/-- `btn.textContent = s`; throws when `btn` is `null`. -/
def set_textContent (btn : Option Unit) (s : String) : Run Unit := fun p =>
  match btn, p.btn_safe with
  | some _, some el =>
      ⟨.ok (), { p with btn_safe := some { el with textContent := s } }, [Event.setTextContent s]⟩
  | _, _ => ⟨.error (.TypeError "btn.textContent"), p, []⟩

/-- The page function `out(id, text, style)`. -/
def out (id : String) (text : String) (style : Option String) : Run Unit := fun p =>
  ⟨.ok (), p, [Event.out id text style]⟩

/-- The page function `sleep(ms)`, awaited. -/
def sleep (ms : Nat) : Run Unit := fun p => ⟨.ok (), p, [Event.sleep ms]⟩

/-- `await fetch(url, init)`: the request is sent, then the promise settles. -/
def fetch (host : Host) (req : Request) : Run Response := fun p =>
  match host.fetch req with
  | some resp => ⟨.ok resp, p, [Event.fetch req]⟩
  | none => ⟨.error .NetworkError, p, [Event.fetch req]⟩

/-- `await response.json()`: the body is read, then parsed. -/
def Response_json (resp : Response) : Run JSValue := fun p =>
  match resp.json with
  | some v => ⟨.ok v, p, [Event.json resp]⟩
  | none => ⟨.error .SyntaxError, p, [Event.json resp]⟩

/-- The assignment `savedTicket = v`. -/
def assign_savedTicket (v : JSValue) : Run Unit := fun p =>
  ⟨.ok (), { p with savedTicket := v }, [Event.assignSavedTicket v]⟩

/-- The text of `${Date.now() - startTime}`. -/
def elapsed (host : Host) : Run String := fun p =>
  ⟨.ok (Number_toString host.engine ((host.Date_now p.clockReads - p.startTime : Int) : ℚ)),
    { p with clockReads := p.clockReads + 1 }, []⟩

/-! ## The script -/

/-- The toggle `const USE_REAL_API = false`. -/
def USE_REAL_API : Bool := false

/-- The initialiser of `API_URL`, as a function of the toggle. -/
def API_URL_of (toggle : Bool) : Option String :=
  if toggle then some "https://your-api.railway.app" else none

/-- The constant
`const API_URL = USE_REAL_API ? 'https://your-api.railway.app' : null`. -/
def API_URL : Option String := API_URL_of USE_REAL_API

/-- The object literal that `runSafe` encodes as the body of the decide request. -/
def decideBody : JSValue :=
  .obj [("tool", .str "db.query"), ("agent_id", .str "demo"),
        ("signals", .obj [("consistency", .num 0.95), ("accuracy", .num 0.98)])]

/-- The first call of `fetch` in `runSafe`. -/
def decideRequest (toggle : Bool) : Request :=
  { url := templ (API_URL_of toggle) ++ "/api/decide"
    method := "POST"
    headers := [("Content-Type", "application/json")]
    body := .JSON_stringify decideBody }

/-- The second call of `fetch` in `runSafe`, for the value of `data.ticket`. -/
def consumeRequest (toggle : Bool) (ticket : JSValue) : Request :=
  { url := templ (API_URL_of toggle) ++ "/api/consume"
    method := "POST"
    headers := [("Content-Type", "application/json")]
    body := .JSON_stringify (.obj [("ticket", ticket), ("tool", .str "db.query")]) }

/-- The body of `runSafe`, with the toggle as a parameter.  The `else` block of
the file holds only comments. -/
def runSafeWith (toggle : Bool) (host : Host) : Run Unit := do
  let btn ← document_getElementById "btn-safe"
  set_disabled btn true
  set_textContent btn "Running..."
  out "out1" "⏳ Requesting permission..." none
  sleep 500
  if toggle then
    let response ← fetch host (decideRequest toggle)
    let data ← Response_json response
    let ticket ← liftExcept (Get data "ticket")
    assign_savedTicket ticket
    let integrity1 ← liftExcept ((Get data "integrity").bind (ToStr host.engine))
    let shown1 ← liftExcept ((Get data "ticket").bind (fun t => callSubstring t 0 40))
    let latency ← elapsed host
    out "out1"
      ("✓ REAL API CALL\n\n" ++
       ("Integrity: " ++ integrity1 ++ "\n") ++
       ("Ticket: " ++ shown1 ++ "...\n") ++
       ("Latency: " ++ latency ++ "ms\n\n") ++
       "⏳ Consuming ticket...")
      none
    let ticket2 ← liftExcept (Get data "ticket")
    let consumeResponse ← fetch host (consumeRequest toggle ticket2)
    let consumeData ← Response_json consumeResponse
    let integrity2 ← liftExcept ((Get data "integrity").bind (ToStr host.engine))
    let shown2 ← liftExcept ((Get data "ticket").bind (fun t => callSubstring t 0 40))
    let total ← elapsed host
    let status := Number_toString host.engine (consumeResponse.status : ℚ)
    let consumed ← liftExcept ((Get consumeData "consumed").bind (ToStr host.engine))
    out "out1"
      ("✓ REAL API CALL\n\n" ++
       ("Integrity: " ++ integrity2 ++ "\n") ++
       ("Ticket: " ++ shown2 ++ "...\n") ++
       ("Total latency: " ++ total ++ "ms\n\n") ++
       "✓ Entry granted\n" ++
       ("Status: " ++ status ++ "\n") ++
       ("Consumed: " ++ consumed ++ "\n\n") ++
       "💡 This was a REAL backend call!")
      (some "success")
  else
    pure ()
  set_disabled btn false
  set_textContent btn "Run safe flow"

/-- The function `runSafe` of the file, under the file's value of the toggle. -/
def runSafe (host : Host) : Run Unit := runSafeWith USE_REAL_API host

/-- The requests sent, oldest first. -/
def requests : List Event → List Request
  | [] => []
  | Event.fetch r :: rest => r :: requests rest
  | _ :: rest => requests rest

/-- The network events (requests sent and bodies read), oldest first. -/
def network : List Event → List Event
  | [] => []
  | Event.fetch r :: rest => Event.fetch r :: network rest
  | Event.json r :: rest => Event.json r :: network rest
  | _ :: rest => network rest

/-- The calls of `out`, oldest first: id, text and style. -/
def outputs : List Event → List (String × String × Option String)
  | [] => []
  | Event.out id text style :: rest => (id, text, style) :: outputs rest
  | _ :: rest => outputs rest

/-- The text of the first output of the real branch, given the texts of its
substitutions. -/
def consumingText (integrity shown latency : String) : String :=
  "✓ REAL API CALL\n\n" ++
    ("Integrity: " ++ integrity ++ "\n") ++
    ("Ticket: " ++ shown ++ "...\n") ++
    ("Latency: " ++ latency ++ "ms\n\n") ++
    "⏳ Consuming ticket..."

/-- The text of the last output of the real branch, given the texts of its
substitutions. -/
def finalText (integrity shown total status consumed : String) : String :=
  "✓ REAL API CALL\n\n" ++
    ("Integrity: " ++ integrity ++ "\n") ++
    ("Ticket: " ++ shown ++ "...\n") ++
    ("Total latency: " ++ total ++ "ms\n\n") ++
    "✓ Entry granted\n" ++
    ("Status: " ++ status ++ "\n") ++
    ("Consumed: " ++ consumed ++ "\n\n") ++
    "💡 This was a REAL backend call!"

/-- The page a run of the real branch leaves when every step succeeds. -/
def donePage (page : Page) (saved : JSValue) (reads : Nat) : Page :=
  { btn_safe := some { disabled := false, textContent := "Run safe flow" }
    savedTicket := saved
    startTime := page.startTime
    clockReads := page.clockReads + reads }

/-- The text of `${Date.now() - startTime}` at the reading number `k` of a run
from `page`. -/
def elapsedText (host : Host) (page : Page) (k : Nat) : String :=
  Number_toString host.engine ((host.Date_now (page.clockReads + k) - page.startTime : Int) : ℚ)

/-- The effects of a run of the real branch in which every step succeeds. -/
def realEvents (host : Host) (page : Page) (r1 r2 : Response) (t integrity consumed : String) :
    List Event :=
  [Event.setDisabled true, Event.setTextContent "Running...",
   Event.out "out1" "⏳ Requesting permission..." none, Event.sleep 500,
   Event.fetch (decideRequest true), Event.json r1, Event.assignSavedTicket (.str t),
   Event.out "out1" (consumingText integrity (substring t 0 40) (elapsedText host page 0)) none,
   Event.fetch (consumeRequest true (.str t)), Event.json r2,
   Event.out "out1"
     (finalText integrity (substring t 0 40) (elapsedText host page 1)
       (Number_toString host.engine (r2.status : ℚ)) consumed)
     (some "success"),
   Event.setDisabled false, Event.setTextContent "Run safe flow"]

/-! ## The request contract of the decide endpoint -/

/-- Whether a value is a string. -/
def isString : JSValue → Bool
  | .str _ => true
  | _ => false

/-- Whether a value is a number. -/
def isNumber : JSValue → Bool
  | .num _ => true
  | _ => false

/-- Modelled from the spec: the request shape of `POST /api/decide`,
`{tool: string, agent_id: string, signals: {string: number}}`, which the
server's declaration of the endpoint (not in this file) fixes: an object with
exactly the three fields, `tool` and `agent_id` strings and `signals` an object
whose every value is a number. -/
def hasDecideShape : JSValue → Bool
  | .obj fields =>
      fields.length == 3 &&
      (match lookupField fields "tool" with
       | some v => isString v
       | none => false) &&
      (match lookupField fields "agent_id" with
       | some v => isString v
       | none => false) &&
      (match lookupField fields "signals" with
       | some (.obj signals) => signals.all (fun kv => isNumber kv.2)
       | _ => false)
  | _ => false

/-- The string bound to `key` in an object, if there is one. -/
def fieldString : JSValue → String → Option String
  | .obj fields, key =>
      match lookupField fields key with
      | some (.str s) => some s
      | _ => none
  | _, _ => none

/-- The entries of a signal map, when every value is a number. -/
def signalEntries : List (String × JSValue) → Option (List (String × ℚ))
  | [] => some []
  | (k, .num q) :: rest =>
      match signalEntries rest with
      | some l => some ((k, q) :: l)
      | none => none
  | _ :: _ => none

/-- The signal map of a decide body. -/
def signalsOf : JSValue → Option (List (String × ℚ))
  | .obj fields =>
      match lookupField fields "signals" with
      | some (.obj signals) => signalEntries signals
      | _ => none
  | _ => none

/-- Modelled from the spec: the input constraints of the Decision Engine, whose
code is not in this file: `tool` and `agent_id` non-empty, each signal value in
[0,1]. -/
def meetsInputConstraints (tool agent_id : String) (signals : List (String × ℚ)) : Prop :=
  tool ≠ "" ∧ agent_id ≠ "" ∧ ∀ kv ∈ signals, 0 ≤ kv.2 ∧ kv.2 ≤ 1

/-- The arithmetic mean of the signal values. -/
def signalMean (signals : List (String × ℚ)) : ℚ :=
  (signals.map (fun kv => kv.2)).sum / (signals.length : ℚ)

/-- Modelled from the spec: the example admission policy of the Decision Engine,
whose code is not in this file, "threshold 0.9-average": the mean of the signal
values is at least the threshold. -/
def passesAveragePolicy (threshold : ℚ) (signals : List (String × ℚ)) : Prop :=
  threshold ≤ signalMean signals

/-! ## Sample hosts -/

/-- A page with the button, before the click. -/
def samplePage : Page :=
  { btn_safe := some { disabled := false, textContent := "Run safe flow" }
    savedTicket := .undefined
    startTime := 990
    clockReads := 0 }

/-- A ticket of fifty characters. -/
def sampleTicket : String := "tkt_0123456789abcdefghijklmnopqrstuvwxyzABCDEFGHIJ"

/-- A server that answers the decide request with `dec` and the consume request
with `con`, on the base URL of the script. -/
def serverWith (dec con : Option Response) : Host :=
  { fetch := fun req =>
      if req.url = "https://your-api.railway.app/api/decide" then dec
      else if req.url = "https://your-api.railway.app/api/consume" then con
      else none
    Date_now := fun k => 1000 + 25 * (k : Int)
    engine := fun _ => "NaN" }

/-- The decide response `200 {integrity, ticket}`. -/
def ticketResponse : Response :=
  { status := 200
    json := some (.obj [("integrity", .str "ok"), ("ticket", .str sampleTicket)]) }

/-- The consume response `200 {consumed: true}`. -/
def grantResponse : Response :=
  { status := 200, json := some (.obj [("consumed", .bool true)]) }

/-- The consume response `409 {consumed: false, reason: "replay"}`. -/
def replayResponse : Response :=
  { status := 409, json := some (.obj [("consumed", .bool false), ("reason", .str "replay")]) }

/-- The decide response `403 {reason}`. -/
def refusalResponse : Response :=
  { status := 403, json := some (.obj [("reason", .str "insufficient_score")]) }

/-- A server that issues the sample ticket and grants it. -/
def grantHost : Host := serverWith (some ticketResponse) (some grantResponse)

/-- A server that issues the sample ticket and answers its redemption with a
replay denial. -/
def replayHost : Host := serverWith (some ticketResponse) (some replayResponse)

/-- A server that refuses the decide request. -/
def refusalHost : Host := serverWith (some refusalResponse) (some grantResponse)

/-! ## The consumption service, from the specification

The server behind the two endpoints is not part of `update-to-real-api.js`, which
only calls it.  Its consumption path is modelled from the specification. -/

/-- Modelled from the spec: the fields of a ticket (section 3); the server's
ticket type is not in this file.  Timestamps are natural numbers. -/
structure Ticket where
  tool : String
  agent_id : String
  signals : List (String × ℚ)
  ticket_id : String
  issued_at : Nat
  expires_at : Nat
  integrity : String

/-- Modelled from the spec: the two ways `decode` fails (section 4.2). -/
inductive DecodeError where
  | malformed : DecodeError
  | bad_integrity : DecodeError
deriving DecidableEq, Repr

/-- Modelled from the spec: the Ticket Codec's `decode` (section 4.2), which
returns the fields of an opaque string whose structure is sound and whose
integrity tag verifies; the codec and its secret are not in this file, so the
function is a parameter. -/
structure Codec where
  decode : String → Except DecodeError Ticket

/-- Modelled from the spec: the outcomes of `try_consume` (section 4.3). -/
inductive TryConsume where
  | Consumed : TryConsume
  | AlreadyConsumed : TryConsume
  | Expired : TryConsume
deriving DecidableEq, Repr

/-- Modelled from the spec: the reasons of a denial (section 4.4). -/
inductive DenyReason where
  | invalid : DenyReason
  | expired : DenyReason
  | tool_mismatch : DenyReason
  | replay : DenyReason
deriving DecidableEq, Repr

/-- Modelled from the spec: the result of `consume` (section 4.4). -/
inductive ConsumeResult where
  | Grant : ConsumeResult
  | Deny (reason : DenyReason) : ConsumeResult
deriving DecidableEq, Repr

/-- Modelled from the spec: the Ticket Store's record (section 3, lifecycle), a
consumed marker per ticket identifier, kept with the expiry after which the
entry may be evicted. -/
abbrev TicketStore : Type := List (String × Nat)

/-- Whether the store holds a consumed marker for the identifier. -/
def isConsumed (store : TicketStore) (ticket_id : String) : Bool :=
  store.any (fun entry => entry.1 == ticket_id)

/-- Modelled from the spec: the Ticket Store's `try_consume(ticket_id, now)`
(section 4.3), one atomic check-and-set: the expiry check precedes the
consumption-state check, and a first consumption records the marker.  The
ticket's expiry, which the store keeps with the entry, is passed along. -/
def try_consume (store : TicketStore) (ticket_id : String) (expires_at now : Nat) :
    TryConsume × TicketStore :=
  if expires_at ≤ now then (.Expired, store)
  else if isConsumed store ticket_id then (.AlreadyConsumed, store)
  else (.Consumed, (ticket_id, expires_at) :: store)

/-- Modelled from the spec: the Consumption Service's
`consume(opaque_ticket, requested_tool, now)` (section 4.4), whose code is not
in this file; the four steps in strict order, failing on the first mismatch:
decode, the time check, `requested_tool == ticket.tool`, `try_consume`.  The
time check is the validity window of section 3, `now` in
`[issued_at, expires_at)`, outside of which the ticket is invalid; its failure
is the denial of step 2, `Deny(expired)`. -/
def consume (codec : Codec) (store : TicketStore) (opaque_ticket requested_tool : String)
    (now : Nat) : ConsumeResult × TicketStore :=
  match codec.decode opaque_ticket with
  | .error _ => (.Deny .invalid, store)
  | .ok ticket =>
      if ¬ (ticket.issued_at ≤ now ∧ now < ticket.expires_at) then (.Deny .expired, store)
      else if ¬ requested_tool = ticket.tool then (.Deny .tool_mismatch, store)
      else
        match try_consume store ticket.ticket_id ticket.expires_at now with
        | (.Consumed, store1) => (.Grant, store1)
        | (.AlreadyConsumed, store1) => (.Deny .replay, store1)
        | (.Expired, store1) => (.Deny .expired, store1)

/-- A ticket for `db.query` issued at time 100 with a lifetime of 100. -/
def issuedTicket : Ticket :=
  { tool := "db.query"
    agent_id := "demo"
    signals := [("consistency", 0.95), ("accuracy", 0.98)]
    ticket_id := "id-1"
    issued_at := 100
    expires_at := 200
    integrity := "tag-1" }

/-- A codec under which the sample ticket string decodes to `issuedTicket` and
nothing else decodes. -/
def sampleCodec : Codec :=
  { decode := fun s => if s = sampleTicket then .ok issuedTicket else .error .malformed }


/-! ## Evaluation lemmas -/

/-- Binding a value. -/
theorem Except_bind_ok {α β : Type} (a : α) (f : α → Except JSError β) :
    (Except.ok a : Except JSError α).bind f = f a := rfl

/-- The outcome of the real branch when every step succeeds. -/
theorem runSafeWith_real_ok (host : Host) (page : Page) (b : Button) (r1 r2 : Response)
    (data consumeData : JSValue) (t integrity consumed : String)
    (hb : page.btn_safe = some b)
    (hf : host.fetch (decideRequest true) = some r1)
    (hj : r1.json = some data)
    (hg : Get data "ticket" = .ok (.str t))
    (hi : (Get data "integrity").bind (ToStr host.engine) = .ok integrity)
    (hf2 : host.fetch (consumeRequest true (.str t)) = some r2)
    (hj2 : r2.json = some consumeData)
    (hc : (Get consumeData "consumed").bind (ToStr host.engine) = .ok consumed) :
    runSafeWith true host page =
      ⟨.ok (), donePage page (.str t) 2, realEvents host page r1 r2 t integrity consumed⟩ := by
  simp only [runSafeWith, bind, Run.bind, document_getElementById, set_disabled,
    set_textContent, out, sleep, hb, fetch, Response_json, liftExcept, assign_savedTicket,
    elapsed, hf, hj, hg, hi, hf2, hj2, hc, Except_bind_ok, callSubstring, if_true, Option.map]
  simp [donePage, realEvents, consumingText, finalText, elapsedText]

/-- A run of the real branch that completes normally succeeded at every step. -/
theorem runSafeWith_real_inv (host : Host) (page : Page)
    (hok : (runSafeWith true host page).result = .ok ()) :
    ∃ (b : Button) (r1 r2 : Response) (data consumeData : JSValue) (t integrity consumed : String),
      page.btn_safe = some b ∧ host.fetch (decideRequest true) = some r1 ∧ r1.json = some data ∧
      Get data "ticket" = .ok (.str t) ∧
      (Get data "integrity").bind (ToStr host.engine) = .ok integrity ∧
      host.fetch (consumeRequest true (.str t)) = some r2 ∧ r2.json = some consumeData ∧
      (Get consumeData "consumed").bind (ToStr host.engine) = .ok consumed := by
  cases hb : page.btn_safe with
  | none =>
    simp [runSafeWith, bind, Run.bind, document_getElementById, set_disabled, hb] at hok
  | some b =>
  cases hf : host.fetch (decideRequest true) with
  | none =>
    simp [runSafeWith, bind, Run.bind, document_getElementById, set_disabled,
      set_textContent, out, sleep, hb, fetch, hf] at hok
  | some r1 =>
  cases hj : r1.json with
  | none =>
    simp [runSafeWith, bind, Run.bind, document_getElementById, set_disabled,
      set_textContent, out, sleep, hb, fetch, hf, Response_json, hj] at hok
  | some data =>
  cases hg : Get data "ticket" with
  | error e =>
    simp [runSafeWith, bind, Run.bind, document_getElementById, set_disabled,
      set_textContent, out, sleep, hb, fetch, hf, Response_json, hj, liftExcept, hg] at hok
  | ok ticket =>
  cases hi : (Get data "integrity").bind (ToStr host.engine) with
  | error e =>
    simp [runSafeWith, bind, Run.bind, document_getElementById, set_disabled,
      set_textContent, out, sleep, hb, fetch, hf, Response_json, hj, liftExcept, hg,
      assign_savedTicket, hi] at hok
  | ok integrity =>
  cases hs : callSubstring ticket 0 40 with
  | error e =>
    simp [runSafeWith, bind, Run.bind, document_getElementById, set_disabled,
      set_textContent, out, sleep, hb, fetch, hf, Response_json, hj, liftExcept, hg,
      assign_savedTicket, hi, Except_bind_ok, hs] at hok
  | ok shown =>
  obtain ⟨t, rfl⟩ : ∃ t, ticket = .str t := by
    cases ticket <;> simp [callSubstring] at hs
    exact ⟨_, rfl⟩
  cases hf2 : host.fetch (consumeRequest true (.str t)) with
  | none =>
    simp [runSafeWith, bind, Run.bind, document_getElementById, set_disabled,
      set_textContent, out, sleep, hb, fetch, hf, Response_json, hj, liftExcept, hg,
      assign_savedTicket, hi, Except_bind_ok, hs, elapsed, hf2] at hok
  | some r2 =>
  cases hj2 : r2.json with
  | none =>
    simp [runSafeWith, bind, Run.bind, document_getElementById, set_disabled,
      set_textContent, out, sleep, hb, fetch, hf, Response_json, hj, liftExcept, hg,
      assign_savedTicket, hi, Except_bind_ok, hs, elapsed, hf2, hj2] at hok
  | some consumeData =>
  cases hc : (Get consumeData "consumed").bind (ToStr host.engine) with
  | error e =>
    simp [runSafeWith, bind, Run.bind, document_getElementById, set_disabled,
      set_textContent, out, sleep, hb, fetch, hf, Response_json, hj, liftExcept, hg,
      assign_savedTicket, hi, Except_bind_ok, hs, elapsed, hf2, hj2, hc] at hok
  | ok consumed =>
  exact ⟨b, r1, r2, data, consumeData, t, integrity, consumed, rfl, rfl, hj, hg, hi, hf2, hj2, hc⟩

/-- Once the first output is made, the ticket is saved and both requests are sent,
however the call ends. -/
theorem runSafeWith_real_sent (host : Host) (page : Page) (b : Button) (r1 : Response)
    (data : JSValue) (t integrity : String)
    (hb : page.btn_safe = some b)
    (hf : host.fetch (decideRequest true) = some r1)
    (hj : r1.json = some data)
    (hg : Get data "ticket" = .ok (.str t))
    (hi : (Get data "integrity").bind (ToStr host.engine) = .ok integrity) :
    (runSafeWith true host page).page.savedTicket = .str t ∧
    requests (runSafeWith true host page).events =
      [decideRequest true, consumeRequest true (.str t)] := by
  cases hf2 : host.fetch (consumeRequest true (.str t)) with
  | none =>
    simp [runSafeWith, bind, Run.bind, document_getElementById, set_disabled,
      set_textContent, out, sleep, hb, fetch, hf, Response_json, hj, liftExcept, hg,
      assign_savedTicket, hi, Except_bind_ok, callSubstring, elapsed, hf2, requests]
  | some r2 =>
  cases hj2 : r2.json with
  | none =>
    simp [runSafeWith, bind, Run.bind, document_getElementById, set_disabled,
      set_textContent, out, sleep, hb, fetch, hf, Response_json, hj, liftExcept, hg,
      assign_savedTicket, hi, Except_bind_ok, callSubstring, elapsed, hf2, hj2, requests]
  | some consumeData =>
  cases hc : (Get consumeData "consumed").bind (ToStr host.engine) with
  | error e =>
    simp [runSafeWith, bind, Run.bind, document_getElementById, set_disabled,
      set_textContent, out, sleep, hb, fetch, hf, Response_json, hj, liftExcept, hg,
      assign_savedTicket, hi, Except_bind_ok, callSubstring, elapsed, hf2, hj2, hc, requests]
  | ok consumed =>
    rw [runSafeWith_real_ok host page b r1 r2 data consumeData t integrity consumed
      hb hf hj hg hi hf2 hj2 hc]
    simp [donePage, realEvents, requests]

/-! ## The claims -/

/-- C1: with the toggle on and the button on the page, the first request `runSafe`
sends is a POST to `API_URL + "/api/decide"` with the header
`Content-Type: application/json`, whose body encodes the object with exactly the
fields `tool = "db.query"`, `agent_id = "demo"` and
`signals = {consistency: 0.95, accuracy: 0.98}`, which has the request shape of
the decide endpoint. -/
theorem first_request_is_decide_post (host : Host) (page : Page) (b : Button)
    (hb : page.btn_safe = some b) :
    API_URL_of true = some "https://your-api.railway.app" ∧
    (requests (runSafeWith true host page).events).head? =
      some { url := "https://your-api.railway.app" ++ "/api/decide"
             method := "POST"
             headers := [("Content-Type", "application/json")]
             body := .JSON_stringify
               (.obj [("tool", .str "db.query"), ("agent_id", .str "demo"),
                      ("signals", .obj [("consistency", .num 0.95), ("accuracy", .num 0.98)])]) } ∧
    hasDecideShape decideBody = true := by
  refine ⟨rfl, ?_, by simp [hasDecideShape, decideBody, lookupField, isString, isNumber]⟩
  cases hf : host.fetch (decideRequest true) with
  | none =>
    simp [runSafeWith, bind, Run.bind, document_getElementById, set_disabled,
      set_textContent, out, sleep, hb, fetch, hf, requests]
    rfl
  | some r1 =>
    simp only [runSafeWith, bind, Run.bind, document_getElementById, set_disabled,
      set_textContent, out, sleep, hb, fetch, hf, if_true, Option.map]
    simp [requests]
    rfl

/-- C3: the body of the decide request built by `runSafe` has a non-empty `tool`
and `agent_id`, every signal value in [0,1], and the mean of its signal values,
`(0.95 + 0.98) / 2` as an exact rational, is at least the threshold 0.9. -/
theorem decide_request_meets_policy :
    (decideRequest true).body = .JSON_stringify decideBody ∧
    ∃ signals : List (String × ℚ),
      fieldString decideBody "tool" = some "db.query" ∧
      fieldString decideBody "agent_id" = some "demo" ∧
      signalsOf decideBody = some signals ∧
      meetsInputConstraints "db.query" "demo" signals ∧
      signalMean signals = (0.95 + 0.98) / 2 ∧
      passesAveragePolicy 0.9 signals := by
  refine ⟨rfl, [("consistency", 0.95), ("accuracy", 0.98)], ?_, ?_, ?_, ?_, ?_, ?_⟩
  · simp [fieldString, decideBody, lookupField]
  · simp [fieldString, decideBody, lookupField]
  · simp [signalsOf, decideBody, lookupField, signalEntries]
  · refine ⟨by decide, by decide, ?_⟩
    intro kv hkv
    simp at hkv
    rcases hkv with rfl | rfl <;> norm_num
  · simp [signalMean]
  · simp [passesAveragePolicy, signalMean]
    norm_num

/-- C2: in the real branch, when the decide response is an object whose field
`ticket` is the string `t`, `savedTicket` ends as exactly `t`, every request to
`/api/consume` carries the body `{ticket: t, tool: "db.query"}` with `t`
unmodified, that request is sent as soon as the integrity value converts to
text, and its tool is the tool of the decide request. -/
theorem ticket_held_opaquely (host : Host) (page : Page) (b : Button) (r1 : Response)
    (fields : List (String × JSValue)) (t : String)
    (hb : page.btn_safe = some b)
    (hf : host.fetch (decideRequest true) = some r1)
    (hj : r1.json = some (.obj fields))
    (ht : lookupField fields "ticket" = some (.str t)) :
    (runSafeWith true host page).page.savedTicket = .str t ∧
    (∀ r ∈ requests (runSafeWith true host page).events,
      r.url = "https://your-api.railway.app/api/consume" →
      r.body = .JSON_stringify (.obj [("ticket", .str t), ("tool", .str "db.query")])) ∧
    (∀ integrity, (Get (.obj fields) "integrity").bind (ToStr host.engine) = .ok integrity →
      requests (runSafeWith true host page).events =
        [decideRequest true,
         { url := "https://your-api.railway.app/api/consume"
           method := "POST"
           headers := [("Content-Type", "application/json")]
           body := .JSON_stringify (.obj [("ticket", .str t), ("tool", .str "db.query")]) }]) ∧
    fieldString decideBody "tool" = some "db.query" := by
  have hg : Get (.obj fields) "ticket" = .ok (.str t) := by simp [Get, ht]
  have hurl : (decideRequest true).url ≠ "https://your-api.railway.app/api/consume" := by
    decide
  cases hi : (Get (.obj fields) "integrity").bind (ToStr host.engine) with
  | error e =>
    refine ⟨?_, ?_, ?_, ?_⟩
    · simp [runSafeWith, bind, Run.bind, document_getElementById, set_disabled,
        set_textContent, out, sleep, hb, fetch, hf, Response_json, hj, liftExcept, hg,
        assign_savedTicket, hi]
    · intro r hr hu
      simp [runSafeWith, bind, Run.bind, document_getElementById, set_disabled,
        set_textContent, out, sleep, hb, fetch, hf, Response_json, hj, liftExcept, hg,
        assign_savedTicket, hi, requests] at hr
      subst hr
      exact absurd hu hurl
    · intro integrity h
      cases h
    · simp [fieldString, decideBody, lookupField]
  | ok integrity =>
    have h := runSafeWith_real_sent host page b r1 (.obj fields) t integrity hb hf hj hg hi
    refine ⟨h.1, ?_, ?_, ?_⟩
    · intro r hr _
      rw [h.2] at hr
      simp at hr
      rcases hr with rfl | rfl
      · exact absurd ‹_› hurl
      · rfl
    · intro _ _
      rw [h.2]
      rfl
    · simp [fieldString, decideBody, lookupField]

/-- C4: a run of the real branch that completes normally performs exactly these
network steps, in this order: the POST to `/api/decide`, the read of its body,
the POST to `/api/consume` with the ticket of that body, the read of its body;
so it sends two requests and submits the ticket once. -/
theorem normal_run_two_requests (host : Host) (page : Page)
    (hok : (runSafeWith true host page).result = .ok ()) :
    ∃ (r1 r2 : Response) (data : JSValue) (t : String),
      host.fetch (decideRequest true) = some r1 ∧ r1.json = some data ∧
      Get data "ticket" = .ok (.str t) ∧
      host.fetch (consumeRequest true (.str t)) = some r2 ∧
      network (runSafeWith true host page).events =
        [Event.fetch (decideRequest true), Event.json r1,
         Event.fetch (consumeRequest true (.str t)), Event.json r2] ∧
      requests (runSafeWith true host page).events =
        [decideRequest true, consumeRequest true (.str t)] ∧
      (decideRequest true).url = "https://your-api.railway.app/api/decide" ∧
      (decideRequest true).method = "POST" ∧
      (consumeRequest true (.str t)).url = "https://your-api.railway.app/api/consume" ∧
      (consumeRequest true (.str t)).method = "POST" := by
  obtain ⟨b, r1, r2, data, consumeData, t, integrity, consumed, hb, hf, hj, hg, hi, hf2, hj2, hc⟩ :=
    runSafeWith_real_inv host page hok
  refine ⟨r1, r2, data, t, hf, hj, hg, hf2, ?_, ?_, rfl, rfl, rfl, rfl⟩
  · rw [runSafeWith_real_ok host page b r1 r2 data consumeData t integrity consumed
      hb hf hj hg hi hf2 hj2 hc]
    simp [realEvents, network]
  · rw [runSafeWith_real_ok host page b r1 r2 data consumeData t integrity consumed
      hb hf hj hg hi hf2 hj2 hc]
    simp [realEvents, requests]

/-- C5: `API_URL` is non-null exactly when the toggle is on; the toggle of the
file is off, and then `runSafe` sends no request, reads no response, and never
assigns `savedTicket`: with the button on the page its effects are the two
button updates, the first output, the sleep and the two closing button updates. -/
theorem toggle_off_no_network :
    (∀ toggle : Bool, API_URL_of toggle ≠ none ↔ toggle = true) ∧
    (API_URL ≠ none ↔ USE_REAL_API = true) ∧
    USE_REAL_API = false ∧
    ∀ (host : Host) (page : Page),
      network (runSafe host page).events = [] ∧
      requests (runSafe host page).events = [] ∧
      (∀ v, Event.assignSavedTicket v ∉ (runSafe host page).events) ∧
      (runSafe host page).page.savedTicket = page.savedTicket ∧
      (∀ b, page.btn_safe = some b →
        (runSafe host page).events =
          [Event.setDisabled true, Event.setTextContent "Running...",
           Event.out "out1" "⏳ Requesting permission..." none, Event.sleep 500,
           Event.setDisabled false, Event.setTextContent "Run safe flow"]) := by
  refine ⟨?_, ?_, rfl, ?_⟩
  · intro toggle
    cases toggle <;> simp [API_URL_of]
  · simp [API_URL, API_URL_of, USE_REAL_API]
  · intro host page
    cases hb : page.btn_safe with
    | none =>
      simp [runSafe, USE_REAL_API, runSafeWith, bind, Run.bind, document_getElementById,
        set_disabled, hb, network, requests]
    | some b =>
      simp [runSafe, USE_REAL_API, runSafeWith, bind, Run.bind, document_getElementById,
        set_disabled, set_textContent, out, sleep, hb, network, requests, pure, Run.pure]

/-- C8, counterexample: against a server that answers the redemption with
`409 {consumed: false, reason: "replay"}`, `runSafe` completes and its last
output reads `✓ Entry granted` in the `success` style. -/
theorem entry_granted_reported_on_replay :
    replayHost.fetch (consumeRequest true (.str sampleTicket)) = some replayResponse ∧
    replayResponse.status = 409 ∧
    replayResponse.json = some (.obj [("consumed", .bool false), ("reason", .str "replay")]) ∧
    (runSafeWith true replayHost samplePage).result = .ok () ∧
    (outputs (runSafeWith true replayHost samplePage).events).getLast? =
      some ("out1",
        "✓ REAL API CALL\n\nIntegrity: ok\nTicket: tkt_0123456789abcdefghijklmnopqrstuvwxyz...\nTotal latency: 35ms\n\n✓ Entry granted\nStatus: 409\nConsumed: false\n\n💡 This was a REAL backend call!",
        some "success") := by
  refine ⟨rfl, rfl, rfl, rfl, ?_⟩
  rfl

/-- C8, amended: every run of the real branch that completes normally ends its
outputs with the `success`-styled text that reads `✓ Entry granted`, followed by
the status and the `consumed` value of the consume response as they are,
whatever that response is. -/
theorem entry_granted_reported_whatever_the_response (host : Host) (page : Page)
    (hok : (runSafeWith true host page).result = .ok ()) :
    ∃ (r2 : Response) (consumeData : JSValue) (t integrity total consumed : String),
      host.fetch (consumeRequest true (.str t)) = some r2 ∧
      r2.json = some consumeData ∧
      (Get consumeData "consumed").bind (ToStr host.engine) = .ok consumed ∧
      (outputs (runSafeWith true host page).events).getLast? =
        some ("out1",
          "✓ REAL API CALL\n\n" ++ ("Integrity: " ++ integrity ++ "\n") ++
            ("Ticket: " ++ substring t 0 40 ++ "...\n") ++
            ("Total latency: " ++ total ++ "ms\n\n") ++
            "✓ Entry granted\n" ++
            ("Status: " ++ Number_toString host.engine (r2.status : ℚ) ++ "\n") ++
            ("Consumed: " ++ consumed ++ "\n\n") ++
            "💡 This was a REAL backend call!",
          some "success") := by
  obtain ⟨b, r1, r2, data, consumeData, t, integrity, consumed, hb, hf, hj, hg, hi, hf2, hj2, hc⟩ :=
    runSafeWith_real_inv host page hok
  refine ⟨r2, consumeData, t, integrity, elapsedText host page 1, consumed, hf2, hj2, hc, ?_⟩
  rw [runSafeWith_real_ok host page b r1 r2 data consumeData t integrity consumed
    hb hf hj hg hi hf2 hj2 hc]
  simp [realEvents, outputs, finalText]

/-- C9: in the real branch, when the decide response is an object without a field
`ticket`, the run ends with an exception, the decide request is the only request
sent, none goes to `/api/consume`, and when the integrity value converts to text
the exception is the one raised by `data.ticket.substring(0, 40)`. -/
theorem refusal_not_redeemed (host : Host) (page : Page) (b : Button) (r1 : Response)
    (fields : List (String × JSValue))
    (hb : page.btn_safe = some b)
    (hf : host.fetch (decideRequest true) = some r1)
    (hj : r1.json = some (.obj fields))
    (hno : lookupField fields "ticket" = none) :
    (∃ e, (runSafeWith true host page).result = .error e) ∧
    requests (runSafeWith true host page).events = [decideRequest true] ∧
    (∀ r ∈ requests (runSafeWith true host page).events,
      r.url ≠ "https://your-api.railway.app/api/consume") ∧
    (∀ integrity, (Get (.obj fields) "integrity").bind (ToStr host.engine) = .ok integrity →
      (runSafeWith true host page).result = .error (.TypeError "substring")) := by
  have hg : Get (.obj fields) "ticket" = .ok .undefined := by simp [Get, hno]
  have hev : requests (runSafeWith true host page).events = [decideRequest true] := by
    cases hi : (Get (.obj fields) "integrity").bind (ToStr host.engine) <;>
    simp [runSafeWith, bind, Run.bind, document_getElementById, set_disabled,
      set_textContent, out, sleep, hb, fetch, hf, Response_json, hj, liftExcept, hg,
      assign_savedTicket, hi, Except_bind_ok, callSubstring, requests]
  refine ⟨?_, hev, ?_, ?_⟩
  · cases hi : (Get (.obj fields) "integrity").bind (ToStr host.engine) with
    | error e =>
      refine ⟨e, ?_⟩
      simp [runSafeWith, bind, Run.bind, document_getElementById, set_disabled,
        set_textContent, out, sleep, hb, fetch, hf, Response_json, hj, liftExcept, hg,
        assign_savedTicket, hi, Except_bind_ok, callSubstring]
    | ok integrity =>
      refine ⟨.TypeError "substring", ?_⟩
      simp [runSafeWith, bind, Run.bind, document_getElementById, set_disabled,
        set_textContent, out, sleep, hb, fetch, hf, Response_json, hj, liftExcept, hg,
        assign_savedTicket, hi, Except_bind_ok, callSubstring]
  · intro r hr
    rw [hev] at hr
    simp at hr
    subst hr
    decide
  · intro integrity hi
    simp [runSafeWith, bind, Run.bind, document_getElementById, set_disabled,
      set_textContent, out, sleep, hb, fetch, hf, Response_json, hj, liftExcept, hg,
      assign_savedTicket, hi, Except_bind_ok, callSubstring]

/-- C10: with the button on the page, the first effects of `runSafe` are
`btn.disabled = true` and `btn.textContent = "Running..."`, ahead of the first
output and the sleep; and a call that completes normally, with the toggle on or
off, ends with `btn.disabled = false` and `btn.textContent = "Run safe flow"`,
which are its last two effects. -/
theorem button_brackets_the_run (toggle : Bool) (host : Host) (page : Page) (b : Button)
    (hb : page.btn_safe = some b) :
    (∃ rest, (runSafeWith toggle host page).events =
      Event.setDisabled true :: Event.setTextContent "Running..." ::
        Event.out "out1" "⏳ Requesting permission..." none :: Event.sleep 500 :: rest) ∧
    ((runSafeWith toggle host page).result = .ok () →
      (runSafeWith toggle host page).page.btn_safe =
        some { disabled := false, textContent := "Run safe flow" } ∧
      ∃ before, (runSafeWith toggle host page).events =
        before ++ [Event.setDisabled false, Event.setTextContent "Run safe flow"]) := by
  cases toggle with
  | false =>
    simp [runSafeWith, bind, Run.bind, document_getElementById,
      set_disabled, set_textContent, out, sleep, hb, pure, Run.pure]
    exact ⟨[Event.setDisabled true, Event.setTextContent "Running...",
      Event.out "out1" "⏳ Requesting permission..." none, Event.sleep 500], rfl⟩
  | true =>
    constructor
    · cases hf : host.fetch (decideRequest true) with
      | none =>
        simp [runSafeWith, bind, Run.bind, document_getElementById, set_disabled,
          set_textContent, out, sleep, hb, fetch, hf]
      | some r1 =>
        simp only [runSafeWith, bind, Run.bind, document_getElementById, set_disabled,
          set_textContent, out, sleep, hb, fetch, hf, if_true, Option.map]
        simp
    · intro hok
      obtain ⟨b, r1, r2, data, consumeData, t, integrity, consumed, hb, hf, hj, hg, hi, hf2, hj2,
        hc⟩ := runSafeWith_real_inv host page hok
      rw [runSafeWith_real_ok host page b r1 r2 data consumeData t integrity consumed
        hb hf hj hg hi hf2 hj2 hc]
      refine ⟨rfl, ?_⟩
      exact ⟨(realEvents host page r1 r2 t integrity consumed).take 11, rfl⟩

/-- C7: `consume` returns `Grant` exactly when the ticket decodes (its integrity
tag verifies), `issued_at <= now < expires_at`, the requested tool is the
ticket's tool and the store holds no consumed marker for its identifier.  A
grant records the marker, after which the same ticket is never granted again and
is denied as a replay inside its window; a denial leaves the store as it was;
and a decoded ticket presented at or after `expires_at` is denied as expired,
consumed before or not. -/
theorem consume_grant_iff_valid (codec : Codec) (store : TicketStore)
    (opaque_ticket requested_tool : String) (now : Nat) :
    ((consume codec store opaque_ticket requested_tool now).1 = .Grant ↔
      ∃ ticket, codec.decode opaque_ticket = .ok ticket ∧
        ticket.issued_at ≤ now ∧ now < ticket.expires_at ∧
        requested_tool = ticket.tool ∧ isConsumed store ticket.ticket_id = false) ∧
    (∀ ticket, codec.decode opaque_ticket = .ok ticket →
      (consume codec store opaque_ticket requested_tool now).1 = .Grant →
      (consume codec store opaque_ticket requested_tool now).2 =
        (ticket.ticket_id, ticket.expires_at) :: store ∧
      isConsumed (consume codec store opaque_ticket requested_tool now).2 ticket.ticket_id
        = true ∧
      ∀ later : Nat,
        (consume codec (consume codec store opaque_ticket requested_tool now).2
          opaque_ticket requested_tool later).1 ≠ .Grant ∧
        (ticket.issued_at ≤ later → later < ticket.expires_at →
          (consume codec (consume codec store opaque_ticket requested_tool now).2
            opaque_ticket requested_tool later).1 = .Deny .replay)) ∧
    ((consume codec store opaque_ticket requested_tool now).1 ≠ .Grant →
      (consume codec store opaque_ticket requested_tool now).2 = store) ∧
    (∀ ticket, codec.decode opaque_ticket = .ok ticket → ticket.expires_at ≤ now →
      consume codec store opaque_ticket requested_tool now = (.Deny .expired, store)) := by
  cases hd : codec.decode opaque_ticket with
  | error e =>
    simp [consume, hd]
  | ok ticket =>
    by_cases hwin : ticket.issued_at ≤ now ∧ now < ticket.expires_at
    · obtain ⟨hiss, hexp⟩ := hwin
      by_cases htool : requested_tool = ticket.tool
      · by_cases hc : isConsumed store ticket.ticket_id = true
        · simp [consume, hd, hiss, hexp, htool, try_consume, hc, Nat.not_le.mpr hexp]
        · have hrun : consume codec store opaque_ticket requested_tool now =
              (.Grant, (ticket.ticket_id, ticket.expires_at) :: store) := by
            simp [consume, hd, hiss, hexp, htool, try_consume, hc, Nat.not_le.mpr hexp]
          have hmark : isConsumed ((ticket.ticket_id, ticket.expires_at) :: store)
              ticket.ticket_id = true := by
            simp [isConsumed]
          rw [hrun]
          refine ⟨?_, ?_, ?_, ?_⟩
          · simp [hiss, hexp, htool, hc]
          · intro ticket1 h1 _
            cases h1
            refine ⟨rfl, hmark, ?_⟩
            intro later
            by_cases hlater : ticket.issued_at ≤ later ∧ later < ticket.expires_at
            · simp [consume, hd, hlater.1, hlater.2, htool, try_consume, hmark,
                Nat.not_le.mpr hlater.2]
            · constructor
              · simp [consume, hd, hlater]
              · intro h1 h2
                exact absurd ⟨h1, h2⟩ hlater
          · simp
          · intro ticket1 h1 h2
            cases h1
            omega
      · simp [consume, hd, hiss, hexp, htool, Nat.not_le.mpr hexp]
    · have hrun : consume codec store opaque_ticket requested_tool now =
          (.Deny .expired, store) := by
        simp [consume, hd, hwin]
      rw [hrun]
      refine ⟨?_, ?_, ?_, ?_⟩
      · constructor
        · intro h
          cases h
        · rintro ⟨ticket1, h1, h2, h3, -⟩
          cases h1
          exact absurd ⟨h2, h3⟩ hwin
      · intro ticket1 _ h
        cases h
      · intro _
        rfl
      · intro _ _ _
        rfl

/-! ## The theorems at the sample hosts -/

/-- The first request at the sample page and the granting server. -/
theorem first_request_is_decide_post_witness :
    samplePage.btn_safe = some { disabled := false, textContent := "Run safe flow" } ∧
    (requests (runSafeWith true grantHost samplePage).events).head? =
      some { url := "https://your-api.railway.app" ++ "/api/decide"
             method := "POST"
             headers := [("Content-Type", "application/json")]
             body := .JSON_stringify
               (.obj [("tool", .str "db.query"), ("agent_id", .str "demo"),
                      ("signals", .obj [("consistency", .num 0.95), ("accuracy", .num 0.98)])]) } :=
  ⟨rfl, (first_request_is_decide_post grantHost samplePage _ rfl).2.1⟩

/-- The ticket of fifty characters is saved and redeemed whole. -/
theorem ticket_held_opaquely_witness :
    grantHost.fetch (decideRequest true) = some ticketResponse ∧
    (runSafeWith true grantHost samplePage).page.savedTicket = .str sampleTicket ∧
    requests (runSafeWith true grantHost samplePage).events =
      [decideRequest true,
       { url := "https://your-api.railway.app/api/consume"
         method := "POST"
         headers := [("Content-Type", "application/json")]
         body := .JSON_stringify (.obj [("ticket", .str sampleTicket), ("tool", .str "db.query")]) }] :=
  ⟨rfl,
   (ticket_held_opaquely grantHost samplePage _ ticketResponse
      [("integrity", .str "ok"), ("ticket", .str sampleTicket)] sampleTicket rfl rfl rfl rfl).1,
   (ticket_held_opaquely grantHost samplePage _ ticketResponse
      [("integrity", .str "ok"), ("ticket", .str sampleTicket)] sampleTicket rfl rfl rfl rfl).2.2.1
      "ok" rfl⟩

/-- The run against the granting server completes normally, with two requests. -/
theorem normal_run_two_requests_witness :
    (runSafeWith true grantHost samplePage).result = .ok () ∧
    ∃ (r1 r2 : Response) (data : JSValue) (t : String),
      grantHost.fetch (decideRequest true) = some r1 ∧ r1.json = some data ∧
      Get data "ticket" = .ok (.str t) ∧
      grantHost.fetch (consumeRequest true (.str t)) = some r2 ∧
      network (runSafeWith true grantHost samplePage).events =
        [Event.fetch (decideRequest true), Event.json r1,
         Event.fetch (consumeRequest true (.str t)), Event.json r2] ∧
      requests (runSafeWith true grantHost samplePage).events =
        [decideRequest true, consumeRequest true (.str t)] ∧
      (decideRequest true).url = "https://your-api.railway.app/api/decide" ∧
      (decideRequest true).method = "POST" ∧
      (consumeRequest true (.str t)).url = "https://your-api.railway.app/api/consume" ∧
      (consumeRequest true (.str t)).method = "POST" :=
  ⟨rfl, normal_run_two_requests grantHost samplePage rfl⟩

/-- The run against the replaying server completes normally and reports a grant. -/
theorem entry_granted_reported_whatever_the_response_witness :
    (runSafeWith true replayHost samplePage).result = .ok () ∧
    ∃ (r2 : Response) (consumeData : JSValue) (t integrity total consumed : String),
      replayHost.fetch (consumeRequest true (.str t)) = some r2 ∧
      r2.json = some consumeData ∧
      (Get consumeData "consumed").bind (ToStr replayHost.engine) = .ok consumed ∧
      (outputs (runSafeWith true replayHost samplePage).events).getLast? =
        some ("out1",
          "✓ REAL API CALL\n\n" ++ ("Integrity: " ++ integrity ++ "\n") ++
            ("Ticket: " ++ substring t 0 40 ++ "...\n") ++
            ("Total latency: " ++ total ++ "ms\n\n") ++
            "✓ Entry granted\n" ++
            ("Status: " ++ Number_toString replayHost.engine (r2.status : ℚ) ++ "\n") ++
            ("Consumed: " ++ consumed ++ "\n\n") ++
            "💡 This was a REAL backend call!",
          some "success") :=
  ⟨rfl, entry_granted_reported_whatever_the_response replayHost samplePage rfl⟩

/-- The refusal `403 {reason}` ends the run at `substring`, after one request. -/
theorem refusal_not_redeemed_witness :
    refusalHost.fetch (decideRequest true) = some refusalResponse ∧
    (runSafeWith true refusalHost samplePage).result = .error (.TypeError "substring") ∧
    requests (runSafeWith true refusalHost samplePage).events = [decideRequest true] :=
  ⟨rfl,
   (refusal_not_redeemed refusalHost samplePage _ refusalResponse
      [("reason", .str "insufficient_score")] rfl rfl rfl rfl).2.2.2 "undefined" rfl,
   (refusal_not_redeemed refusalHost samplePage _ refusalResponse
      [("reason", .str "insufficient_score")] rfl rfl rfl rfl).2.1⟩

/-- The button at the end of a run against the granting server. -/
theorem button_brackets_the_run_witness :
    samplePage.btn_safe = some { disabled := false, textContent := "Run safe flow" } ∧
    (runSafeWith true grantHost samplePage).result = .ok () ∧
    (runSafeWith true grantHost samplePage).page.btn_safe =
      some { disabled := false, textContent := "Run safe flow" } :=
  ⟨rfl, rfl, ((button_brackets_the_run true grantHost samplePage _ rfl).2 rfl).1⟩

/-- The sample ticket, issued at 100 and valid until 200: granted once at 150,
a replay at 160, not granted at 50, expired at 200. -/
theorem consume_grant_iff_valid_witness :
    (consume sampleCodec [] sampleTicket "db.query" 150).1 = .Grant ∧
    (consume sampleCodec [] sampleTicket "db.query" 150).2 = [("id-1", 200)] ∧
    consume sampleCodec [("id-1", 200)] sampleTicket "db.query" 160 =
      (.Deny .replay, [("id-1", 200)]) ∧
    (consume sampleCodec [] sampleTicket "db.query" 50).1 ≠ .Grant ∧
    consume sampleCodec [] sampleTicket "db.query" 200 = (.Deny .expired, []) :=
  ⟨(consume_grant_iff_valid sampleCodec [] sampleTicket "db.query" 150).1.mpr
      ⟨issuedTicket, rfl, by decide, by decide, rfl, rfl⟩,
   ((consume_grant_iff_valid sampleCodec [] sampleTicket "db.query" 150).2.1 issuedTicket rfl
      (by decide)).1,
   by decide,
   by decide,
   (consume_grant_iff_valid sampleCodec [] sampleTicket "db.query" 200).2.2.2 issuedTicket rfl
     (by decide)⟩

end Kasbah
